import Mathlib

/-!
Verification of the Android TV remote-control repository (`arm`).

This file shallowly embeds the parts of the source relevant to the frozen
claims:

* `src/bluetooth_control.py` — the BLE HID controller: the consumer-control
  usage-code table, the key-name mapping of `send_key_command`, the
  press/release report write path (`_send_consumer_report`,
  `_try_generic_write`), `disconnect`, and the broken
  `discover_android_tv_devices` entry point.
* `src/bluetooth_enhanced.py` — discovery deduplication
  (`enhanced_discover_devices`), quality scoring
  (`_calculate_device_quality`), Android-TV classification
  (`_is_android_tv_device`) and result filtering (`_sort_and_filter_devices`).
* `src/remote_control.py` — the TLS pairing state machine (`pair`) and
  `disconnect`.

Stateful and effectful code is embedded as explicit state passing plus event
traces; fallible transport calls are driven by explicit outcome environments,
so every definition is executable on concrete inputs.
-/

/-! ## String helpers

Python string operations used by the source: `str.lower()` and the
substring-containment test `pat in s`.  All names occurring in the source's
keyword lists are ASCII, so ASCII lowercasing is faithful. -/

/-- ASCII lowercasing of one character, as Python `str.lower()` acts on the
ASCII range. -/
def lowerChar (c : Char) : Char :=
  if 'A' ≤ c ∧ c ≤ 'Z' then Char.ofNat (c.toNat + 32) else c

/-- Lowercased character list of a string (Python `s.lower()`). -/
def lowerStr (s : String) : List Char :=
  s.data.map lowerChar

/-- Containment of `pat` in `hay` as a contiguous run, matching Python's
`pat in hay` on strings. -/
def containsChars (hay pat : List Char) : Bool :=
  match hay with
  | [] => pat.isEmpty
  | c :: t => pat.isPrefixOf (c :: t) || containsChars t pat

/-! ## `src/bluetooth_control.py` — BLE HID controller -/

namespace BtCtl

/- Usage codes of the `ConsumerControlCodes` IntEnum
(src/bluetooth_control.py lines 46-69). -/
namespace ConsumerControlCodes

def POWER : Nat := 0x30
def HOME : Nat := 0x223
def BACK : Nat := 0x224
def MENU : Nat := 0x40
def VOLUME_UP : Nat := 0xE9
def VOLUME_DOWN : Nat := 0xEA
def VOLUME_MUTE : Nat := 0xE2
def CHANNEL_UP : Nat := 0x9C
def CHANNEL_DOWN : Nat := 0x9D
def PLAY_PAUSE : Nat := 0xCD
def STOP : Nat := 0xB7
def FAST_FORWARD : Nat := 0xB3
def REWIND : Nat := 0xB4
def RECORD : Nat := 0xB2
def UP : Nat := 0x42
def DOWN : Nat := 0x43
def LEFT : Nat := 0x44
def RIGHT : Nat := 0x45
def SELECT : Nat := 0x41
def PAIR : Nat := 0x225

end ConsumerControlCodes

/-- Key-name mapping of `send_key_command`
(src/bluetooth_control.py lines 410-430): note the mute entry is keyed by
the string `"MUTE"`, not `"VOLUME_MUTE"`. -/
def key_mapping (key_code : String) : Option Nat :=
  match key_code with
  | "POWER" => some ConsumerControlCodes.POWER
  | "HOME" => some ConsumerControlCodes.HOME
  | "BACK" => some ConsumerControlCodes.BACK
  | "MENU" => some ConsumerControlCodes.MENU
  | "VOLUME_UP" => some ConsumerControlCodes.VOLUME_UP
  | "VOLUME_DOWN" => some ConsumerControlCodes.VOLUME_DOWN
  | "MUTE" => some ConsumerControlCodes.VOLUME_MUTE
  | "CHANNEL_UP" => some ConsumerControlCodes.CHANNEL_UP
  | "CHANNEL_DOWN" => some ConsumerControlCodes.CHANNEL_DOWN
  | "DPAD_UP" => some ConsumerControlCodes.UP
  | "DPAD_DOWN" => some ConsumerControlCodes.DOWN
  | "DPAD_LEFT" => some ConsumerControlCodes.LEFT
  | "DPAD_RIGHT" => some ConsumerControlCodes.RIGHT
  | "DPAD_CENTER" => some ConsumerControlCodes.SELECT
  | "PLAY_PAUSE" => some ConsumerControlCodes.PLAY_PAUSE
  | "STOP" => some ConsumerControlCodes.STOP
  | "FAST_FORWARD" => some ConsumerControlCodes.FAST_FORWARD
  | "REWIND" => some ConsumerControlCodes.REWIND
  | "PAIR" => some ConsumerControlCodes.PAIR
  | _ => none

/-- The 3-byte HID report `struct.pack('<BH', 0x01, usage_code)`
(src/bluetooth_control.py line 463): report ID 1, then the 16-bit usage code
little-endian.  All usage codes of the table are below 2^16, where the pack
format is exact. -/
def hidReport (usage : Nat) : List Nat :=
  [1, usage % 256, usage / 256 % 256]

/-- Outcome of one awaited transport call: it returns normally or raises. -/
inductive WriteOutcome where
  | ok
  | exn
  deriving BEq, DecidableEq, Repr

/-- One GATT characteristic as seen by `_try_generic_write`: its uuid,
whether `'write'` is among its properties, and whether a
`write_gatt_char` on it succeeds. -/
structure GattChar where
  uuid : String
  writable : Bool
  accept : Bool
  deriving BEq, DecidableEq, Repr

/-- Observable steps of the key-send path: a GATT write attempt (target
characteristic uuid, payload, whether the write raised) and the
`asyncio.sleep(0.1)` settle delay. -/
inductive SendEvent where
  | write (target : String) (data : List Nat) (ok : Bool)
  | settleDelay
  deriving BEq, DecidableEq, Repr

/-- Environment driving one `_send_consumer_report` call: the
characteristics enumerated by the first and second `get_services()` call of
the generic fallback, and the outcomes of the (up to two) writes on the HID
report characteristic. -/
structure WriteEnv where
  chars1 : List GattChar
  chars2 : List GattChar
  hidWrite1 : WriteOutcome
  hidWrite2 : WriteOutcome

/-- Embeds `_try_generic_write` (src/bluetooth_control.py lines 490-509):
iterate all characteristics, attempt a write on each one whose properties
include `'write'`, swallow per-characteristic exceptions and continue, stop
at the first success; report failure when none accepts. -/
def tryGenericWrite (chars : List GattChar) (data : List Nat) :
    Bool × List SendEvent :=
  match chars with
  | [] => (false, [])
  | c :: rest =>
    if c.writable then
      if c.accept then (true, [.write c.uuid data true])
      else
        let (r, evs) := tryGenericWrite rest data
        (r, .write c.uuid data false :: evs)
    else tryGenericWrite rest data

/-- Embeds `_send_consumer_report` (src/bluetooth_control.py lines 451-488).
With a resolved HID report characteristic, the press report is written to it
(an exception propagates to the outer handler and the call returns `False`
with no release write); then after the settle delay the release report is
written to it (an exception here also lands in the outer handler, so the
call returns `False`).  Without a resolved characteristic the generic
fallback is used: a failed press aborts with `False`, while the release
write's result is discarded and the call returns `True`. -/
def sendConsumerReport (hidChar : Option String) (env : WriteEnv)
    (usage : Nat) : Bool × List SendEvent :=
  match hidChar with
  | some u =>
    match env.hidWrite1 with
    | .exn => (false, [.write u (hidReport usage) false])
    | .ok =>
      match env.hidWrite2 with
      | .exn =>
        (false, [.write u (hidReport usage) true, .settleDelay,
          .write u (hidReport 0) false])
      | .ok =>
        (true, [.write u (hidReport usage) true, .settleDelay,
          .write u (hidReport 0) true])
  | none =>
    let (ok1, evs1) := tryGenericWrite env.chars1 (hidReport usage)
    if ok1 then
      let (_, evs2) := tryGenericWrite env.chars2 (hidReport 0)
      (true, evs1 ++ .settleDelay :: evs2)
    else (false, evs1)

/-- Mutable fields of `BluetoothRemoteController` read or written by the
embedded operations (src/bluetooth_control.py lines 90-94).  The client is
modelled by its `is_connected` flag when present. -/
structure BtState where
  client : Option Bool
  is_connected : Bool
  device_address : Option String
  device_name : Option String
  hid_report_char : Option String
  deriving BEq, DecidableEq, Repr

/-- Controller state installed by `__init__` (src/bluetooth_control.py
lines 90-94): no client, not connected, nothing resolved. -/
def initState : BtState :=
  { client := none, is_connected := false, device_address := none,
    device_name := none, hid_report_char := none }

/-- Embeds `send_key_command` (src/bluetooth_control.py lines 395-449):
when not connected or without a client handle it fails with no transport
I/O; an unrecognized key name fails with no transport I/O; otherwise the
mapped usage code is sent as a consumer report. -/
def send_key_command (st : BtState) (env : WriteEnv) (key_code : String) :
    Bool × List SendEvent :=
  if st.is_connected = false ∨ st.client = none then (false, [])
  else
    match key_mapping key_code with
    | none => (false, [])
    | some code => sendConsumerReport st.hid_report_char env code

/-- Result of calling `discover_android_tv_devices`: a normal return with a
device list, or a Python `NameError` escaping the call (carrying the unbound
name). -/
inductive DiscoveryOutcome where
  | results (addresses : List String)
  | nameError (unbound : String)
  deriving BEq, DecidableEq, Repr

/-- Embeds `discover_android_tv_devices` (src/bluetooth_control.py lines
108-176).  The parameter was renamed to `retry_count`, but the body still
reads the name `max_attempts` — first in the logging f-string on line 122,
then in the loop header on line 125 — and no local or global of that name
exists, so with Bluetooth available the call raises `NameError` before the
first scan attempt; the per-attempt `try/except` on lines 128-166 never
comes into scope.  Without Bluetooth, the guard on line 119 returns the
empty list. -/
def discover_android_tv_devices (bluetoothAvailable : Bool)
    (timeout retry_count : Nat) : DiscoveryOutcome :=
  if bluetoothAvailable = false then .results []
  else .nameError "max_attempts"

/-- Observable steps of `disconnect`: the awaited transport disconnect
(recording whether it raised; the exception is caught and logged either
way) and the status-callback notification. -/
inductive BtEvent where
  | transportDisconnect (ok : Bool)
  | notifyStatus (connected : Bool)
  deriving BEq, DecidableEq, Repr

/-- Embeds `BluetoothRemoteController.disconnect` (src/bluetooth_control.py
lines 356-370): when a client handle exists and reports connected, the
transport disconnect is awaited with any exception swallowed; in every case
all five fields are cleared and the status callback is notified with
`(False, "Disconnected")`.  The call itself never raises. -/
def btDisconnect (st : BtState) (outcome : WriteOutcome) :
    BtState × List BtEvent :=
  let evs :=
    match st.client with
    | some true => [BtEvent.transportDisconnect (outcome = .ok)]
    | _ => []
  (initState, evs ++ [.notifyStatus false])

end BtCtl

/-! ## `src/bluetooth_enhanced.py` — discovery scoring and deduplication -/

namespace BtEnh

/-- One discovered-device record as built on src/bluetooth_enhanced.py lines
96-102: MAC address, display name (already defaulted to `"Unknown Device"`
when the advertisement has none), and the optional RSSI.  The
`quality_score` field stored on line 105 is `_calculate_device_quality` of
the record and is recomputed by the embedding where the source reads the
stored copy. -/
structure DeviceInfo where
  address : String
  name : String
  rssi : Option Int
  deriving BEq, DecidableEq, Repr

/-- Strong Android-TV indicator list of `_is_android_tv_device`
(src/bluetooth_enhanced.py lines 183-187). -/
def strong_indicators : List String :=
  ["android tv", "google tv", "chromecast", "nvidia shield",
   "mi box", "fire tv", "roku", "smart tv", "tv box",
   "kodi", "media player", "streaming"]

/-- Brand token list of `_calculate_device_quality`
(src/bluetooth_enhanced.py line 167). -/
def known_brands : List String :=
  ["google", "android", "chromecast", "nvidia", "xiaomi", "samsung",
   "lg", "sony", "tcl"]

/-- Negative indicator list of `_calculate_device_quality`
(src/bluetooth_enhanced.py line 172). -/
def non_tv_indicators : List String :=
  ["phone", "headphones", "earbuds", "watch", "fitness", "mouse",
   "keyboard", "tablet"]

/-- Skip-pattern list of `_sort_and_filter_devices`
(src/bluetooth_enhanced.py line 205). -/
def skip_patterns : List String :=
  ["phone", "headphone", "earbud", "watch", "fitness", "mouse", "keyboard"]

/-- Containment of the (already lowercased) name and a pattern, Python
`pattern in name`. -/
def nameHas (nm : List Char) (pat : String) : Bool :=
  containsChars nm pat.data

/-- Embeds `_is_android_tv_device` on the name string
(src/bluetooth_enhanced.py lines 178-189): some strong indicator occurs as
a substring of the lowercased name. -/
def is_android_tv_name (name : String) : Bool :=
  strong_indicators.any (fun i => nameHas (lowerStr name) i)

/-- Embeds `_is_android_tv_device` (src/bluetooth_enhanced.py lines
178-189), which reads only the record's name. -/
def is_android_tv_device (d : DeviceInfo) : Bool :=
  is_android_tv_name d.name

/-- Signal-strength points of `_calculate_device_quality`
(src/bluetooth_enhanced.py lines 146-155): tiers at −50/−70/−85 dBm; a
missing RSSI earns nothing. -/
def signal_points (rssi : Option Int) : Int :=
  match rssi with
  | some r =>
    if r > -50 then 50
    else if r > -70 then 30
    else if r > -85 then 10
    else 0
  | none => 0

/-- Name-based points of `_calculate_device_quality`
(src/bluetooth_enhanced.py lines 157-169): +20 for a non-empty name other
than `"unknown device"`, +100 when the Android-TV classifier matches, +25
for a recognized brand token. -/
def name_points (name : String) : Int :=
  let nm := lowerStr name
  if nm.isEmpty = false ∧ nm ≠ "unknown device".data then
    20 + (if is_android_tv_name name then 100 else 0)
      + (if known_brands.any (fun b => nameHas nm b) then 25 else 0)
  else 0

/-- Non-TV penalty of `_calculate_device_quality`
(src/bluetooth_enhanced.py lines 171-174): −50 when a negative indicator
occurs in the lowercased name. -/
def penalty_points (name : String) : Int :=
  if non_tv_indicators.any (fun p => nameHas (lowerStr name) p) then -50
  else 0

/-- Embeds `_calculate_device_quality` (src/bluetooth_enhanced.py lines
142-176) as the sum of its three score contributions. -/
def calculate_device_quality (d : DeviceInfo) : Int :=
  signal_points d.rssi + name_points d.name + penalty_points d.name

/-- One deduplication step of `enhanced_discover_devices`
(src/bluetooth_enhanced.py lines 107-110): the observation `d` replaces the
stored entry for its address exactly when no entry exists yet or `d`'s
quality score is strictly greater than the stored one. -/
def dedupStep (m : String → Option DeviceInfo) (d : DeviceInfo) :
    String → Option DeviceInfo :=
  fun a =>
    if a = d.address then
      match m d.address with
      | none => some d
      | some old =>
        if calculate_device_quality d > calculate_device_quality old then
          some d
        else some old
    else m a

/-- The deduplication map built by the scan loop of
`enhanced_discover_devices` (src/bluetooth_enhanced.py lines 82-127) from
the flattened in-order sequence of observations across all attempts,
starting from the empty dict of line 82. -/
def runDedup (obs : List DeviceInfo) : String → Option DeviceInfo :=
  obs.foldl dedupStep (fun _ => none)

/-- Keep-decision of `_sort_and_filter_devices` (src/bluetooth_enhanced.py
lines 195-209): drop a device whose reported RSSI is below −90 unless the
Android-TV classifier matches, then drop any device whose lowercased name
contains a skip pattern. -/
def keepDevice (d : DeviceInfo) : Bool :=
  let weakDrop :=
    match d.rssi with
    | some r => decide (r < -90) && !(is_android_tv_device d)
    | none => false
  !weakDrop && !(skip_patterns.any (fun p => nameHas (lowerStr d.name) p))

/-- Embeds `_sort_and_filter_devices` (src/bluetooth_enhanced.py lines
191-215): filter, stable-sort descending by quality score (Python
`list.sort` is stable), cap at 50 results. -/
def sort_and_filter_devices (ds : List DeviceInfo) : List DeviceInfo :=
  ((ds.filter keepDevice).mergeSort
    (fun a b =>
      decide (calculate_device_quality b ≤ calculate_device_quality a))).take 50

end BtEnh

/-! ## `src/remote_control.py` — TLS pairing state machine -/

namespace Tls

/-- Observable steps of `RemoteControl.pair` (src/remote_control.py lines
77-153): certificate bootstrap, starting the pairing handshake, invoking
the caller's code-provider callback, submitting a code, disconnecting the
partial remote, sleeping, one `async_connect` attempt, and installing the
keep-alive policy. -/
inductive TlsEvent where
  | genCert
  | startPairing
  | askCode
  | finishPairing (code : String)
  | remoteDisconnect
  | sleepSec (n : Nat)
  | connectAttempt
  | keepAlive
  deriving BEq, DecidableEq, Repr

/-- Outcome of one `async_finish_pairing` call: success, `InvalidAuth`, or
some other exception. -/
inductive FinishOutcome where
  | ok
  | invalidAuth
  | otherExn
  deriving BEq, DecidableEq, Repr

/-- Outcome of one `async_connect` call: success, `InvalidAuth`, or a
transport error (`CannotConnect` / `ConnectionClosed`). -/
inductive ConnectOutcome where
  | ok
  | invalidAuth
  | cannotConnect
  deriving BEq, DecidableEq, Repr

/-- Environment driving one `pair` call: the caller's code provider
(`callback()`, returning a `(pairing_code, done)` pair, indexed by pairing
attempt), the outcome of the `async_finish_pairing` call of each pairing
attempt, and the outcome of each `async_connect` retry. -/
structure TlsEnv where
  provider : Nat → String × Bool
  finish : Nat → FinishOutcome
  connectRes : Nat → ConnectOutcome

/-- Exception classes escaping `pair` (the outer handler on lines 151-153
logs and re-raises, so they reach the caller unchanged). -/
inductive TlsError where
  | pairingCancelled
  | invalidAuthError
  | connectError
  | otherError
  deriving BEq, DecidableEq, Repr

/-- Embeds the interactive pairing loop of `pair` (src/remote_control.py
lines 96-117), iterating over the remaining attempt indices of
`range(max_attempts)`.  Each attempt invokes the callback; `done = False`
disconnects the remote and raises `RuntimeError` (re-raised by the generic
handler on lines 115-117); otherwise the code is submitted —
success breaks the loop, `InvalidAuth` re-raises on the last attempt and
otherwise consumes the next attempt, and any other exception re-raises at
once.  The `[]` case is unreachable from `range(3)` because the last
attempt always breaks or raises. -/
def pairingLoop (env : TlsEnv) : List Nat → Except TlsError Unit × List TlsEvent
  | [] => (.error .invalidAuthError, [])
  | attempt :: rest =>
    let code := (env.provider attempt).fst
    let done := (env.provider attempt).snd
    if done = false then
      (.error .pairingCancelled, [.askCode, .remoteDisconnect])
    else
      match env.finish attempt with
      | .ok => (.ok (), [.askCode, .finishPairing code])
      | .invalidAuth =>
        if rest.isEmpty then
          (.error .invalidAuthError, [.askCode, .finishPairing code])
        else
          let (r, evs) := pairingLoop env rest
          (r, .askCode :: .finishPairing code :: evs)
      | .otherExn => (.error .otherError, [.askCode, .finishPairing code])

/-- Embeds the connect loop of `pair` (src/remote_control.py lines
119-136), iterating over the remaining retry indices of
`range(max_retries)`.  Each retry awaits `async_connect`; success breaks
the loop; `InvalidAuth` re-raises on the last retry and otherwise sleeps
1 s before the next retry; `CannotConnect`/`ConnectionClosed` re-raises on
the last retry and otherwise sleeps 2 s.  No branch restarts the pairing
handshake.  The `[]` case is unreachable from `range(3)` because the last
retry always breaks or raises. -/
def connectLoop (env : TlsEnv) : List Nat → Except TlsError Unit × List TlsEvent
  | [] => (.error .connectError, [])
  | retry :: rest =>
    match env.connectRes retry with
    | .ok => (.ok (), [.connectAttempt])
    | .invalidAuth =>
      if rest.isEmpty then (.error .invalidAuthError, [.connectAttempt])
      else
        let (r, evs) := connectLoop env rest
        (r, .connectAttempt :: .sleepSec 1 :: evs)
    | .cannotConnect =>
      if rest.isEmpty then (.error .connectError, [.connectAttempt])
      else
        let (r, evs) := connectLoop env rest
        (r, .connectAttempt :: .sleepSec 2 :: evs)

/-- Embeds `RemoteControl.pair` (src/remote_control.py lines 77-153):
certificate bootstrap and `async_start_pairing` (modelled as succeeding;
their failures propagate through the same outer handler and are not needed
by the claims), then the interactive pairing loop with
`max_attempts = 3`, then on success the connect loop with
`max_retries = 3`, then `keep_reconnecting()` and the observer callbacks. -/
def pair (env : TlsEnv) : Except TlsError Unit × List TlsEvent :=
  let (r1, evs1) := pairingLoop env [0, 1, 2]
  match r1 with
  | .error e => (.error e, .genCert :: .startPairing :: evs1)
  | .ok _ =>
    let (r2, evs2) := connectLoop env [0, 1, 2]
    match r2 with
    | .error e => (.error e, .genCert :: .startPairing :: (evs1 ++ evs2))
    | .ok _ =>
      (.ok (), .genCert :: .startPairing :: (evs1 ++ evs2 ++ [.keepAlive]))

/-- Result of a Python method call that either returns or raises
`AttributeError`. -/
inductive PyOutcome where
  | ok
  | attributeError
  deriving BEq, DecidableEq, Repr

/-- Embeds `RemoteControl.disconnect` (src/remote_control.py lines
200-201): the body is `self.remote.disconnect()`.  In the initial state
`__init__` set `self.remote = None` (line 36), so the attribute access
raises `AttributeError`; once `pair` has installed a remote handle the call
delegates to the transport's disconnect. -/
def rcDisconnect (remote : Option Unit) : PyOutcome :=
  match remote with
  | none => .attributeError
  | some _ => .ok

end Tls

/-! ## Auxiliary definitions used by the statements -/

namespace BtEnh

/-- Left-biased selection between an already-stored entry and a later
candidate: the later one wins only with a strictly greater quality score.
This is both what one `dedupStep` does to the stored slot and the spec's
tie-breaking rule. -/
def mergeObs : Option DeviceInfo → Option DeviceInfo → Option DeviceInfo
  | none, b => b
  | some x, none => some x
  | some x, some y =>
    if calculate_device_quality y > calculate_device_quality x then some y
    else some x

/-- Specification-side selection for claim C5, following the spec's words
("the dedup map retains the entry with the higher quality score (or the
earlier one on exact tie)"): scanning the observations with address `a` in
arrival order, a later observation replaces the current best only when its
score is strictly higher. -/
def specBestObservation (a : String) : List DeviceInfo → Option DeviceInfo
  | [] => none
  | d :: rest =>
    if d.address = a then mergeObs (some d) (specBestObservation a rest)
    else specBestObservation a rest

end BtEnh

/-- Controller state after a successful `connect` with the given resolved
HID report characteristic: client handle present and connected. -/
def connectedState (hid : Option String) : BtCtl.BtState :=
  { client := some true, is_connected := true, device_address := none,
    device_name := none, hid_report_char := hid }

/-- Pairing environment whose code provider reports user cancellation
(`done = False`) on every call. -/
def cancelEnv : Tls.TlsEnv :=
  { provider := fun _ => ("1234", false), finish := fun _ => .ok,
    connectRes := fun _ => .ok }

/-! ## Helper lemmas -/

/-- The later-wins-only-if-strictly-greater selection is associative. -/
theorem mergeObs_assoc (x y z : Option BtEnh.DeviceInfo) :
    BtEnh.mergeObs (BtEnh.mergeObs x y) z =
      BtEnh.mergeObs x (BtEnh.mergeObs y z) := by
  cases x <;> cases y <;> cases z <;>
    simp only [BtEnh.mergeObs] <;> split_ifs <;>
    first
    | rfl
    | (simp only [BtEnh.mergeObs] ; split_ifs <;> first | rfl | omega)
    | omega

/-- One dedup step updates the slot of the observed address by the
left-biased strictly-greater rule. -/
theorem dedupStep_self (m : String → Option BtEnh.DeviceInfo)
    (d : BtEnh.DeviceInfo) :
    BtEnh.dedupStep m d d.address =
      BtEnh.mergeObs (m d.address) (some d) := by
  cases h : m d.address <;> simp [BtEnh.dedupStep, BtEnh.mergeObs, h]

/-- One dedup step leaves every other address unchanged. -/
theorem dedupStep_other (m : String → Option BtEnh.DeviceInfo)
    (d : BtEnh.DeviceInfo) (a : String) (h : a ≠ d.address) :
    BtEnh.dedupStep m d a = m a := by
  simp [BtEnh.dedupStep, h]

/-- The dedup fold from an arbitrary starting map equals the starting slot
merged with the best remaining observation. -/
theorem foldl_dedupStep (obs : List BtEnh.DeviceInfo) :
    ∀ (m : String → Option BtEnh.DeviceInfo) (a : String),
      (obs.foldl BtEnh.dedupStep m) a =
        BtEnh.mergeObs (m a) (BtEnh.specBestObservation a obs) := by
  induction obs with
  | nil =>
    intro m a
    cases h : m a <;> simp [BtEnh.specBestObservation, BtEnh.mergeObs, h]
  | cons d rest ih =>
    intro m a
    rw [List.foldl_cons, ih (BtEnh.dedupStep m d) a]
    by_cases ha : a = d.address
    · subst ha
      rw [dedupStep_self m d, mergeObs_assoc]
      have hspec : BtEnh.specBestObservation d.address (d :: rest) =
          BtEnh.mergeObs (some d) (BtEnh.specBestObservation d.address rest) := by
        rw [BtEnh.specBestObservation, if_pos rfl]
      rw [hspec]
    · rw [dedupStep_other m d a ha]
      have : d.address = a ↔ False := by
        constructor
        · intro hda; exact ha hda.symm
        · intro hF; exact hF.elim
      simp [BtEnh.specBestObservation, this]

/-- When the spec-side selection finds nothing, no observation has that
address. -/
theorem specBest_none (a : String) :
    ∀ (obs : List BtEnh.DeviceInfo),
      BtEnh.specBestObservation a obs = none →
      ∀ e ∈ obs, e.address ≠ a := by
  intro obs
  induction obs with
  | nil => intro _ e he; cases he
  | cons d rest ih =>
    intro h e he
    by_cases hd : d.address = a
    · rw [BtEnh.specBestObservation, if_pos hd] at h
      cases hb : BtEnh.specBestObservation a rest <;>
        rw [hb] at h <;> simp [BtEnh.mergeObs] at h
      split_ifs at h <;> simp at h
    · rw [BtEnh.specBestObservation, if_neg hd] at h
      rcases List.mem_cons.mp he with rfl | hmem
      · exact hd
      · exact ih h e hmem

/-- The spec-side selection returns an observation of the requested address
whose quality score dominates every observation of that address. -/
theorem specBest_is_max (a : String) :
    ∀ (obs : List BtEnh.DeviceInfo) (d : BtEnh.DeviceInfo),
      BtEnh.specBestObservation a obs = some d →
      d ∈ obs ∧ d.address = a ∧
        ∀ e ∈ obs, e.address = a →
          BtEnh.calculate_device_quality e ≤ BtEnh.calculate_device_quality d := by
  intro obs
  induction obs with
  | nil => intro d h; cases h
  | cons x rest ih =>
    intro d h
    by_cases hx : x.address = a
    · rw [BtEnh.specBestObservation, if_pos hx] at h
      cases hb : BtEnh.specBestObservation a rest with
      | none =>
        rw [hb] at h
        simp only [BtEnh.mergeObs] at h
        cases h
        refine ⟨List.mem_cons_self _ _, hx, ?_⟩
        intro e he _
        rcases List.mem_cons.mp he with rfl | hmem
        · exact le_refl _
        · exact absurd (by assumption) (specBest_none a rest hb e hmem)
      | some y =>
        rw [hb] at h
        simp only [BtEnh.mergeObs] at h
        obtain ⟨hymem, hyaddr, hybound⟩ := ih y hb
        split_ifs at h with hlt
        · cases h
          refine ⟨List.mem_cons_of_mem _ hymem, hyaddr, ?_⟩
          intro e he hea
          rcases List.mem_cons.mp he with rfl | hmem
          · exact le_of_lt hlt
          · exact hybound e hmem hea
        · cases h
          refine ⟨List.mem_cons_self _ _, hx, ?_⟩
          intro e he hea
          rcases List.mem_cons.mp he with rfl | hmem
          · exact le_refl _
          · exact le_trans (hybound e hmem hea) (le_of_not_lt hlt)
    · rw [BtEnh.specBestObservation, if_neg hx] at h
      obtain ⟨hmem, haddr, hbound⟩ := ih d h
      refine ⟨List.mem_cons_of_mem _ hmem, haddr, ?_⟩
      intro e he hea
      rcases List.mem_cons.mp he with rfl | hmem2
      · exact absurd hea hx
      · exact hbound e hmem2 hea

/-! ## Claim theorems -/

/-- C1 counterexample: with the HID report characteristic resolved, the
press write succeeding and the release write raising, `send_key_command`
reports failure — the press report was delivered, yet the call does not
report success, contrary to the claim's final clause. -/
theorem C1_release_failure_counterexample :
    BtCtl.send_key_command (connectedState (some "hid"))
        ⟨[], [], .ok, .exn⟩ "HOME" =
      (false,
        [.write "hid" (BtCtl.hidReport 0x223) true, .settleDelay,
         .write "hid" (BtCtl.hidReport 0) false]) := by
  decide

/-- C1 (amended): over the resolved HID report characteristic, a successful
key send is exactly the press report `[0x01, usageLow, usageHigh]` followed
after the settle delay by the release report `[0x01, 0x00, 0x00]`, and it
succeeds exactly when both writes return; a press-write failure aborts
before any release write; but a release-write failure on this path makes
the call report failure — only the generic fallback path discards the
release outcome and still reports success. -/
theorem C1_press_release_amended :
    (∀ (u : String) (env : BtCtl.WriteEnv) (key : String) (code : Nat),
      BtCtl.key_mapping key = some code →
      (((BtCtl.send_key_command (connectedState (some u)) env key).fst = true ↔
          env.hidWrite1 = .ok ∧ env.hidWrite2 = .ok) ∧
        (env.hidWrite1 = .ok → env.hidWrite2 = .ok →
          (BtCtl.send_key_command (connectedState (some u)) env key).snd =
            [.write u (BtCtl.hidReport code) true, .settleDelay,
             .write u (BtCtl.hidReport 0) true]) ∧
        (env.hidWrite1 = .exn →
          (BtCtl.send_key_command (connectedState (some u)) env key).snd =
            [.write u (BtCtl.hidReport code) false]) ∧
        (env.hidWrite1 = .ok → env.hidWrite2 = .exn →
          (BtCtl.send_key_command (connectedState (some u)) env key).fst =
            false))) ∧
    (∀ (env : BtCtl.WriteEnv) (key : String) (code : Nat),
      BtCtl.key_mapping key = some code →
      (BtCtl.tryGenericWrite env.chars1 (BtCtl.hidReport code)).fst = true →
      (BtCtl.send_key_command (connectedState none) env key).fst = true) := by
  constructor
  · intro u env key code hk
    rcases env with ⟨c1, c2, w1, w2⟩
    cases w1 <;> cases w2 <;>
      simp [BtCtl.send_key_command, connectedState, hk,
        BtCtl.sendConsumerReport]
  · intro env key code hk hgen
    rcases hg : BtCtl.tryGenericWrite env.chars1 (BtCtl.hidReport code)
      with ⟨b, evs⟩
    rw [hg] at hgen
    simp at hgen
    subst hgen
    simp [BtCtl.send_key_command, connectedState, hk,
      BtCtl.sendConsumerReport, hg]

/-- C1 witness: a concrete successful send of HOME over the HID report
characteristic produces exactly the press and release writes. -/
theorem C1_press_release_amended_witness :
    (BtCtl.send_key_command (connectedState (some "hid"))
        ⟨[], [], .ok, .ok⟩ "HOME").snd =
      [.write "hid" (BtCtl.hidReport 0x223) true, .settleDelay,
       .write "hid" (BtCtl.hidReport 0) true] :=
  ((C1_press_release_amended.1 "hid" ⟨[], [], .ok, .ok⟩ "HOME" 0x223
    (by decide)).2.1) rfl rfl

/-- C2: with Bluetooth available, `discover_android_tv_devices` raises
`NameError` on the unbound name `max_attempts` (left behind by renaming the
parameter to `retry_count`) for every timeout and attempt count, before the
first scan attempt — discovery propagates an exception to the caller
instead of degrading to an empty result. -/
theorem C2_discovery_raises_nameerror :
    ∀ timeout retry_count : Nat,
      BtCtl.discover_android_tv_devices true timeout retry_count =
        .nameError "max_attempts" := by
  intro timeout retry_count
  rfl

/-- C3 counterexample: the BLE transport does not recognize the logical
name `VOLUME_MUTE`; sending it fails with no transport I/O instead of
encoding usage code 0xE2. -/
theorem C3_volume_mute_counterexample :
    BtCtl.key_mapping "VOLUME_MUTE" = none ∧
    BtCtl.send_key_command (connectedState (some "hid"))
        ⟨[], [], .ok, .ok⟩ "VOLUME_MUTE" = (false, []) := by
  decide

/-- C3 (amended): every recognized key name is encoded as the mapped usage
code in the first (press) report, and the mapping is exactly the spec's
table except that the mute entry is keyed by the string `"MUTE"` (the value
of the TLS controller's VOLUME_MUTE constant); the string `"VOLUME_MUTE"`
itself is rejected as unknown. -/
theorem C3_key_table_amended :
    (∀ (key : String) (code : Nat),
      BtCtl.key_mapping key = some code →
      (BtCtl.send_key_command (connectedState (some "hid"))
          ⟨[], [], .ok, .ok⟩ key).snd.head? =
        some (.write "hid" (BtCtl.hidReport code) true)) ∧
    BtCtl.key_mapping "POWER" = some 0x30 ∧
    BtCtl.key_mapping "HOME" = some 0x223 ∧
    BtCtl.key_mapping "BACK" = some 0x224 ∧
    BtCtl.key_mapping "MENU" = some 0x40 ∧
    BtCtl.key_mapping "VOLUME_UP" = some 0xE9 ∧
    BtCtl.key_mapping "VOLUME_DOWN" = some 0xEA ∧
    BtCtl.key_mapping "MUTE" = some 0xE2 ∧
    BtCtl.key_mapping "VOLUME_MUTE" = none ∧
    BtCtl.key_mapping "CHANNEL_UP" = some 0x9C ∧
    BtCtl.key_mapping "CHANNEL_DOWN" = some 0x9D ∧
    BtCtl.key_mapping "DPAD_UP" = some 0x42 ∧
    BtCtl.key_mapping "DPAD_DOWN" = some 0x43 ∧
    BtCtl.key_mapping "DPAD_LEFT" = some 0x44 ∧
    BtCtl.key_mapping "DPAD_RIGHT" = some 0x45 ∧
    BtCtl.key_mapping "DPAD_CENTER" = some 0x41 ∧
    BtCtl.key_mapping "PLAY_PAUSE" = some 0xCD ∧
    BtCtl.key_mapping "STOP" = some 0xB7 ∧
    BtCtl.key_mapping "FAST_FORWARD" = some 0xB3 ∧
    BtCtl.key_mapping "REWIND" = some 0xB4 ∧
    BtCtl.key_mapping "PAIR" = some 0x225 := by
  refine ⟨?_, by decide⟩
  intro key code hk
  simp [BtCtl.send_key_command, connectedState, hk, BtCtl.sendConsumerReport]

/-- C3 witness: sending the recognized mute name `"MUTE"` encodes usage
code 0xE2 in the press report. -/
theorem C3_key_table_amended_witness :
    (BtCtl.send_key_command (connectedState (some "hid"))
        ⟨[], [], .ok, .ok⟩ "MUTE").snd.head? =
      some (.write "hid" (BtCtl.hidReport 0xE2) true) :=
  C3_key_table_amended.1 "MUTE" 0xE2 (by decide)

/-- C4 counterexample: pairing succeeds at once and every connect attempt
raises `InvalidAuth`; the machine performs three connect attempts with 1-s
backoffs and surfaces the auth error, but the single `startPairing` event
precedes all connect attempts — pairing is never re-triggered by the
auth-error branch, contrary to the claim. -/
theorem C4_auth_retry_counterexample :
    Tls.pair ⟨fun _ => ("1234", true), fun _ => .ok, fun _ => .invalidAuth⟩ =
      (.error .invalidAuthError,
        [.genCert, .startPairing, .askCode, .finishPairing "1234",
         .connectAttempt, .sleepSec 1, .connectAttempt, .sleepSec 1,
         .connectAttempt]) ∧
    (Tls.pair ⟨fun _ => ("1234", true), fun _ => .ok,
        fun _ => .invalidAuth⟩).snd.countP
      (fun e => decide (e = .startPairing)) = 1 := by
  exact ⟨rfl, rfl⟩

/-- C4 (amended): the connect step after successful pairing is bounded by 3
attempts; the connect loop never re-triggers pairing (it emits no
`startPairing` and no code submission) — on an auth-class error it only
logs that re-pairing is needed, backs off 1 s, and retries connect, while a
transport-class error backs off 2 s; the loop succeeds exactly when one of
its three attempts succeeds, so exhausting the retries surfaces a terminal
connection failure. -/
theorem C4_connect_retry_amended (env : Tls.TlsEnv) :
    (Tls.connectLoop env [0, 1, 2]).snd.countP
        (fun e => decide (e = .connectAttempt)) ≤ 3 ∧
    Tls.TlsEvent.startPairing ∉ (Tls.connectLoop env [0, 1, 2]).snd ∧
    (∀ c, Tls.TlsEvent.finishPairing c ∉ (Tls.connectLoop env [0, 1, 2]).snd) ∧
    ((Tls.connectLoop env [0, 1, 2]).fst = .ok () ↔
      env.connectRes 0 = .ok ∨ env.connectRes 1 = .ok ∨
        env.connectRes 2 = .ok) ∧
    (env.connectRes 0 = .invalidAuth →
      ∃ tl, (Tls.connectLoop env [0, 1, 2]).snd =
        .connectAttempt :: .sleepSec 1 :: tl) ∧
    (env.connectRes 0 = .cannotConnect →
      ∃ tl, (Tls.connectLoop env [0, 1, 2]).snd =
        .connectAttempt :: .sleepSec 2 :: tl) := by
  rcases h0 : env.connectRes 0 <;> rcases h1 : env.connectRes 1 <;>
    rcases h2 : env.connectRes 2 <;>
    refine ⟨?_, ?_, ?_, ?_, ?_, ?_⟩ <;>
    simp [Tls.connectLoop, h0, h1, h2]

/-- C4 witness: with every connect attempt failing as `InvalidAuth`, the
first attempt is followed by the 1-second auth backoff. -/
theorem C4_connect_retry_amended_witness :
    ∃ tl, (Tls.connectLoop
        ⟨fun _ => ("1234", true), fun _ => .ok, fun _ => .invalidAuth⟩
        [0, 1, 2]).snd = .connectAttempt :: .sleepSec 1 :: tl :=
  (C4_connect_retry_amended
    ⟨fun _ => ("1234", true), fun _ => .ok, fun _ => .invalidAuth⟩).2.2.2.2.1 rfl

/-- C5: the deduplication map built by the scan loop holds, for every
address, exactly the spec-side selection — the observation with the highest
quality score, the earliest one on an exact tie: a later observation
replaces the stored entry only when its score is strictly greater, and the
selected entry is an observation of that address whose score dominates all
its observations. -/
theorem C5_dedup_keeps_best :
    (∀ (obs : List BtEnh.DeviceInfo) (a : String),
      BtEnh.runDedup obs a = BtEnh.specBestObservation a obs) ∧
    (∀ (obs : List BtEnh.DeviceInfo) (a : String) (d : BtEnh.DeviceInfo),
      BtEnh.specBestObservation a obs = some d →
      d ∈ obs ∧ d.address = a ∧
        ∀ e ∈ obs, e.address = a →
          BtEnh.calculate_device_quality e ≤
            BtEnh.calculate_device_quality d) := by
  constructor
  · intro obs a
    rw [BtEnh.runDedup, foldl_dedupStep obs (fun _ => none) a]
    rfl
  · intro obs a d h
    exact specBest_is_max a obs d h

/-- C5 witness: for the same address seen twice, the second, higher-scoring
observation is retained and dominates both observations. -/
theorem C5_dedup_keeps_best_witness :
    BtEnh.runDedup
        [⟨"aa", "gadget", some (-80)⟩, ⟨"aa", "Chromecast", some (-60)⟩]
        "aa" = some ⟨"aa", "Chromecast", some (-60)⟩ ∧
    ((⟨"aa", "Chromecast", some (-60)⟩ : BtEnh.DeviceInfo) ∈
        ([⟨"aa", "gadget", some (-80)⟩, ⟨"aa", "Chromecast", some (-60)⟩] :
          List BtEnh.DeviceInfo) ∧
      (BtEnh.DeviceInfo.mk "aa" "Chromecast" (some (-60))).address = "aa" ∧
      ∀ e ∈ ([⟨"aa", "gadget", some (-80)⟩,
          ⟨"aa", "Chromecast", some (-60)⟩] : List BtEnh.DeviceInfo),
        e.address = "aa" →
          BtEnh.calculate_device_quality e ≤
            BtEnh.calculate_device_quality
              ⟨"aa", "Chromecast", some (-60)⟩) :=
  ⟨by
    rw [C5_dedup_keeps_best.1
      [⟨"aa", "gadget", some (-80)⟩, ⟨"aa", "Chromecast", some (-60)⟩] "aa"]
    decide,
   C5_dedup_keeps_best.2
    [⟨"aa", "gadget", some (-80)⟩, ⟨"aa", "Chromecast", some (-60)⟩] "aa"
    ⟨"aa", "Chromecast", some (-60)⟩ (by decide)⟩

/-- C6 counterexample: the device named `"gadget"` with no reported RSSI is
kept by the result filter although it matches no Android-TV keyword, while
the identical device reporting −100 dBm is dropped — filtering does not
treat a missing RSSI as −100. -/
theorem C6_filter_counterexample :
    BtEnh.sort_and_filter_devices [⟨"aa", "gadget", none⟩] =
      [⟨"aa", "gadget", none⟩] ∧
    BtEnh.sort_and_filter_devices [⟨"aa", "gadget", some (-100)⟩] = [] ∧
    BtEnh.is_android_tv_device ⟨"aa", "gadget", none⟩ = false := by
  have hkeep : BtEnh.keepDevice ⟨"aa", "gadget", none⟩ = true := by decide
  have hdrop : BtEnh.keepDevice ⟨"aa", "gadget", some (-100)⟩ = false := by
    decide
  refine ⟨?_, ?_, by decide⟩ <;>
    simp [BtEnh.sort_and_filter_devices, hkeep, hdrop]

/-- C6 (amended): a missing RSSI is worst-case for the quality score (the
score equals that of the same device reporting −100 dBm), but the filter's
weaker-than-−90 dBm drop rule applies only to devices that report an RSSI —
a device with no RSSI is exempt from it and is kept exactly when its name
avoids the skip patterns. -/
theorem C6_missing_rssi_amended :
    (∀ (a n : String),
      BtEnh.calculate_device_quality ⟨a, n, none⟩ =
        BtEnh.calculate_device_quality ⟨a, n, some (-100)⟩) ∧
    (∀ (a n : String),
      BtEnh.keepDevice ⟨a, n, none⟩ =
        !(BtEnh.skip_patterns.any (fun p => BtEnh.nameHas (lowerStr n) p))) := by
  constructor
  · intro a n
    simp [BtEnh.calculate_device_quality, BtEnh.signal_points]
  · intro a n
    simp [BtEnh.keepDevice]

/-- C7 counterexample: at RSSI −60 the device named `"Chromecast"` scores
175 and the device named `"random-phone"` scores 0 — a gap of 175 points,
not the at-least-190 the claim asserts. -/
theorem C7_gap_counterexample :
    BtEnh.calculate_device_quality ⟨"aa", "Chromecast", some (-60)⟩ = 175 ∧
    BtEnh.calculate_device_quality ⟨"aa", "random-phone", some (-60)⟩ = 0 ∧
    ¬((175 : Int) ≥ 0 + 190) := by
  decide

/-- C7 (amended): the quality score is monotone in the reported RSSI across
the four signal tiers, and at every RSSI (present or absent) a device named
"Chromecast" scores exactly 175 points more than an otherwise identical
device named "random-phone" (name+TV+brand = 145 versus name−penalty =
−30): at least 175, but not 190. -/
theorem C7_score_amended :
    (∀ (a n : String) (r1 r2 : Int), r1 ≤ r2 →
      BtEnh.calculate_device_quality ⟨a, n, some r1⟩ ≤
        BtEnh.calculate_device_quality ⟨a, n, some r2⟩) ∧
    (∀ (a b : String) (r : Option Int),
      BtEnh.calculate_device_quality ⟨a, "Chromecast", r⟩ =
        BtEnh.calculate_device_quality ⟨b, "random-phone", r⟩ + 175) := by
  constructor
  · intro a n r1 r2 hr
    have hs : BtEnh.signal_points (some r1) ≤ BtEnh.signal_points (some r2) := by
      simp only [BtEnh.signal_points]
      split_ifs <;> omega
    simp only [BtEnh.calculate_device_quality]
    linarith
  · intro a b r
    have h1 : BtEnh.name_points "Chromecast" = 145 := by decide
    have h2 : BtEnh.penalty_points "Chromecast" = 0 := by decide
    have h3 : BtEnh.name_points "random-phone" = 20 := by decide
    have h4 : BtEnh.penalty_points "random-phone" = -50 := by decide
    simp only [BtEnh.calculate_device_quality, h1, h2, h3, h4]
    omega

/-- C7 witness: monotonicity at the concrete RSSI pair (−60, −40). -/
theorem C7_score_amended_witness :
    BtEnh.calculate_device_quality ⟨"aa", "Shield", some (-60)⟩ ≤
      BtEnh.calculate_device_quality ⟨"aa", "Shield", some (-40)⟩ :=
  C7_score_amended.1 "aa" "Shield" (-60) (-40) (by norm_num)

/-- C8 counterexample: in the TLS controller's initial state — no pairing
or connection ever started, so `self.remote` is still `None` —
`disconnect()` raises `AttributeError` instead of succeeding. -/
theorem C8_tls_disconnect_counterexample :
    Tls.rcDisconnect none = .attributeError := by
  rfl

/-- C8 (amended): the BLE controller's `disconnect` succeeds from every
state (transport exceptions are swallowed), always leaves the cleared
disconnected state, and is idempotent; the TLS controller's `disconnect`
raises `AttributeError` in the initial state where no remote handle exists
and only succeeds once pairing has installed one. -/
theorem C8_disconnect_amended :
    (∀ (st : BtCtl.BtState) (o : BtCtl.WriteOutcome),
      (BtCtl.btDisconnect st o).fst = BtCtl.initState) ∧
    (∀ (st : BtCtl.BtState) (o1 o2 : BtCtl.WriteOutcome),
      BtCtl.btDisconnect (BtCtl.btDisconnect st o1).fst o2 =
        (BtCtl.initState, [.notifyStatus false])) ∧
    (BtCtl.initState.is_connected = false ∧ BtCtl.initState.client = none) ∧
    Tls.rcDisconnect none = .attributeError ∧
    (∀ r, Tls.rcDisconnect (some r) = .ok) := by
  refine ⟨fun st o => rfl, fun st o1 o2 => rfl, ⟨rfl, rfl⟩, rfl, fun r => rfl⟩

/-- C9: whenever the code provider reports cancellation (`done = False`) on
its first call, `pair` surfaces the cancellation error; the partial remote
is disconnected before the error is surfaced, no pairing code is ever
submitted, and no connect attempt happens. -/
theorem C9_cancel_aborts (env : Tls.TlsEnv)
    (h : (env.provider 0).snd = false) :
    (Tls.pair env).fst = .error .pairingCancelled ∧
    (Tls.pair env).snd =
      [.genCert, .startPairing, .askCode, .remoteDisconnect] ∧
    (∀ c, Tls.TlsEvent.finishPairing c ∉ (Tls.pair env).snd) ∧
    Tls.TlsEvent.connectAttempt ∉ (Tls.pair env).snd := by
  have hp : Tls.pairingLoop env [0, 1, 2] =
      (.error .pairingCancelled, [.askCode, .remoteDisconnect]) := by
    simp [Tls.pairingLoop, h]
  refine ⟨?_, ?_, ?_, ?_⟩ <;> simp [Tls.pair, hp]

/-- C9 witness: the cancellation environment aborts with the cancellation
error, a disconnect, no code submission, and no connect attempt. -/
theorem C9_cancel_aborts_witness :
    (Tls.pair cancelEnv).fst = .error .pairingCancelled ∧
    (Tls.pair cancelEnv).snd =
      [.genCert, .startPairing, .askCode, .remoteDisconnect] ∧
    (∀ c, Tls.TlsEvent.finishPairing c ∉ (Tls.pair cancelEnv).snd) ∧
    Tls.TlsEvent.connectAttempt ∉ (Tls.pair cancelEnv).snd :=
  C9_cancel_aborts cancelEnv rfl

/-- C10: for every key name, the BLE `send_key_command` on a controller
that is not connected or holds no client handle fails immediately with no
GATT writes and no other transport I/O. -/
theorem C10_not_connected_no_io (st : BtCtl.BtState) (env : BtCtl.WriteEnv)
    (key : String) (h : st.is_connected = false ∨ st.client = none) :
    BtCtl.send_key_command st env key = (false, []) := by
  rw [BtCtl.send_key_command, if_pos h]

/-- C10 witness: sending HOME in the freshly constructed controller state
fails with an empty I/O trace. -/
theorem C10_not_connected_no_io_witness :
    BtCtl.send_key_command BtCtl.initState ⟨[], [], .ok, .ok⟩ "HOME" =
      (false, []) :=
  C10_not_connected_no_io BtCtl.initState ⟨[], [], .ok, .ok⟩ "HOME"
    (Or.inl rfl)
